import Mathlib

/-!
Verification development for the IoTzy backend (src/backend/main.py).

The Python program is shallowly embedded: floats become rationals, dicts
become association lists, the MQTT/HTTP/OpenCV boundaries are cut at the
points where the program consumes their results (a camera frame is
represented by the brightness/presence/timestamp the loop derives from it,
an inbound MQTT message by its topic and decoded JSON payload).  Fallible
Python code returns Except, where an error value models an uncaught Python
exception escaping the handler.
-/

/-- Mirrors the Topics dataclass (main.py lines 18-23), with its default
topic names. -/
structure Topics where
  temperature : String := "iotzy/sensor/temperature"
  presence : String := "iotzy/sensor/presence"
  brightness : String := "iotzy/sensor/brightness"
  lamp_control : String := "iotzy/device/lamp/control"
deriving DecidableEq, Repr

/-- Mirrors the Automation dataclass (main.py lines 26-30). -/
structure Automation where
  lamp_enabled : Bool := true
  lamp_on_threshold : ℚ := 35 / 100
  lamp_off_threshold : ℚ := 5 / 10
deriving DecidableEq, Repr

/-- Mirrors the BackendConfig dataclass (main.py lines 33-42). -/
structure BackendConfig where
  mqtt_host : String := "broker.hivemq.com"
  mqtt_port : ℤ := 1883
  mqtt_use_ssl : Bool := false
  mqtt_username : String := ""
  mqtt_password : String := ""
  camera_index : ℤ := 0
  topics : Topics := {}
  automation : Automation := {}
deriving DecidableEq, Repr

/-- Mirrors the ConfigPayload pydantic model (main.py lines 45-53): every
field optional, absent fields encoded as none. -/
structure ConfigPayload where
  mqtt_host : Option String := none
  mqtt_port : Option ℤ := none
  mqtt_use_ssl : Option Bool := none
  mqtt_username : Option String := none
  mqtt_password : Option String := none
  camera_index : Option ℤ := none
  topics : Option Topics := none
  automation : Option Automation := none
deriving DecidableEq, Repr

/-- Mirrors the SensorState pydantic model (main.py lines 56-61). -/
structure SensorState where
  temperature : Option ℚ := none
  presence : Bool := false
  brightness : Option ℚ := none
  last_seen : Option String := none
  lamp_state : ℤ := 0
deriving DecidableEq, Repr

/-! ## JSON payload model and the inbound temperature handler -/

/-- A decoded JSON scalar value as it appears as a dict entry in the
temperature payload.  null models JSON null (which Python json turns into
None). -/
inductive JVal where
  | num (q : ℚ)
  | str (s : String)
  | bool (b : Bool)
  | null
deriving DecidableEq, Repr

/-- A decoded JSON object: association list from keys to values. -/
abbrev JDict := List (String × JVal)

/-- The result of json.loads on the raw message payload: undecodable
input, a decoded non-object document (list, number, string...), or a
decoded object. -/
inductive Decoded where
  | invalid
  | nonObj
  | obj (d : JDict)
deriving DecidableEq, Repr

/-- An uncaught Python exception escaping a handler or endpoint. -/
inductive PyErr where
  | valueError
  | typeError
  | attributeError
  | unboundLocalError
deriving DecidableEq, Repr

/-- Python dict.get on a decoded JSON object: missing key gives None, and
a JSON null value also surfaces as Python None. -/
def dget (d : JDict) (k : String) : Option JVal :=
  match (d.find? (fun kv => kv.1 = k)).map (fun kv => kv.2) with
  | some JVal.null => none
  | r => r

/-- Python truthiness of a decoded JSON scalar. -/
def truthy : Option JVal → Bool
  | none => false
  | some (JVal.num q) => q ≠ 0
  | some (JVal.str s) => s ≠ ""
  | some (JVal.bool b) => b
  | some JVal.null => false

/-- Python x or y: yields x when x is truthy, otherwise y. -/
def pyOr (x y : Option JVal) : Option JVal :=
  if truthy x then x else y

/-- Models Python float() applied to a decimal string literal: optional
sign, digits, optional fractional part.  Inputs outside this grammar
(such as "abc") are rejected, matching the ValueError raise. -/
def parseFloat (s : String) : Option ℚ :=
  let natOfDigits : List Char → ℕ := List.foldl (fun a c => 10 * a + (c.toNat - 48)) 0
  let core : List Char → Option ℚ := fun cs =>
    let ip := cs.takeWhile Char.isDigit
    let rest := cs.dropWhile Char.isDigit
    match rest with
    | [] => if ip.isEmpty then none else some (natOfDigits ip)
    | '.' :: fp =>
        if fp.all Char.isDigit ∧ ¬(ip.isEmpty ∧ fp.isEmpty) then
          some ((natOfDigits ip : ℚ) + (natOfDigits fp : ℚ) / (10 : ℚ) ^ fp.length)
        else none
    | _ => none
  match s.toList with
  | '-' :: r => (core r).map (fun q => -q)
  | '+' :: r => core r
  | cs => core cs

/-- Python float() on a decoded JSON scalar: numbers pass through, bools
coerce (float(True) = 1.0), strings are parsed or raise ValueError, and
None raises TypeError. -/
def pyFloat : JVal → Except PyErr ℚ
  | JVal.num q => Except.ok q
  | JVal.bool b => Except.ok (if b then 1 else 0)
  | JVal.str s =>
      match parseFloat s with
      | some q => Except.ok q
      | none => Except.error PyErr.valueError
  | JVal.null => Except.error PyErr.typeError

/-- Mirrors mqtt_on_message (main.py lines 105-118).  topicTemp is the
config's temperature topic read under the config lock; msgTopic and
decoded are the inbound message's topic and json.loads result.  An
Except.error result models an exception escaping the handler: only
json.JSONDecodeError is caught by the source, so calling .get on a
non-object document raises AttributeError and a failing float()
conversion raises uncaught. -/
def mqtt_on_message (topicTemp msgTopic : String) (decoded : Decoded)
    (st : SensorState) : Except PyErr SensorState :=
  if msgTopic ≠ topicTemp then Except.ok st
  else
    match decoded with
    | Decoded.invalid => Except.ok st
    | Decoded.nonObj => Except.error PyErr.attributeError
    | Decoded.obj d =>
        match pyOr (dget d "value") (pyOr (dget d "temperature") (dget d "temp")) with
        | none => Except.ok st
        | some v =>
            match pyFloat v with
            | Except.ok q => Except.ok { st with temperature := some q }
            | Except.error e => Except.error e

instance : DecidableEq (Except PyErr SensorState) := fun x y =>
  match x, y with
  | Except.ok a, Except.ok b =>
      if h : a = b then isTrue (by rw [h]) else isFalse (by simp [h])
  | Except.error a, Except.error b =>
      if h : a = b then isTrue (by rw [h]) else isFalse (by simp [h])
  | Except.ok _, Except.error _ => isFalse (by simp)
  | Except.error _, Except.ok _ => isFalse (by simp)

/-- Follows the amended specification words: select the first of the keys
value, temperature, temp whose value is truthy, falling back to the raw
value of the temp key when none is truthy. -/
def selectTempSpec (d : JDict) : Option JVal :=
  if truthy (dget d "value") then dget d "value"
  else if truthy (dget d "temperature") then dget d "temperature"
  else dget d "temp"

/-! ## Config patch (update_config, main.py lines 209-231)

update_config assigns config = updated at line 230 without a global
declaration (unlike on_startup at line 192), so Python compiles config as
a local of the whole function body and the very first statement under the
lock — BackendConfig(**asdict(config)) at line 212 — raises
UnboundLocalError on every call: the merge the body spells out is dead
code, nothing is ever persisted and the shared config is never replaced.
The attempted merge (lines 212-228) is still transcribed below, both to
document the intended semantics and because the atomicity claim
quantifies over the patched snapshot. -/

/-- One of the eight conditional field updates spelled out by the body of
update_config, indexed in source order (main.py lines 213-228); never
executed at runtime (the function raises first); indices outside 0..7
leave the config unchanged. -/
def patchStep (p : ConfigPayload) (k : ℕ) (c : BackendConfig) : BackendConfig :=
  match k with
  | 0 => match p.mqtt_host with | some v => { c with mqtt_host := v } | none => c
  | 1 => match p.mqtt_port with | some v => { c with mqtt_port := v } | none => c
  | 2 => match p.mqtt_use_ssl with | some v => { c with mqtt_use_ssl := v } | none => c
  | 3 => match p.mqtt_username with | some v => { c with mqtt_username := v } | none => c
  | 4 => match p.mqtt_password with | some v => { c with mqtt_password := v } | none => c
  | 5 => match p.camera_index with | some v => { c with camera_index := v } | none => c
  | 6 => match p.topics with | some v => { c with topics := v } | none => c
  | 7 => match p.automation with | some v => { c with automation := v } | none => c
  | _ => c

/-- The first k conditional field updates applied in order. -/
def applyUpTo (p : ConfigPayload) : ℕ → BackendConfig → BackendConfig
  | 0, c => c
  | k + 1, c => patchStep p k (applyUpTo p k c)

/-- The full merge the body of update_config spells out (never executed
at runtime): copy the current config and overwrite exactly the fields
present in the payload, nested topics and automation objects replaced
wholesale. -/
def apply_patch (c : BackendConfig) (p : ConfigPayload) : BackendConfig :=
  applyUpTo p 8 c

/-- The saved document, the new global config, and the HTTP response
body a successful update_config call would produce; no call ever
succeeds. -/
structure UpdateResult where
  saved : BackendConfig
  newConfig : BackendConfig
  response : BackendConfig
deriving DecidableEq, Repr

/-- Mirrors update_config (main.py lines 209-231) as it actually
executes: the unqualified assignment config = updated at line 230 makes
config local to the whole function, no prior statement assigns it, so the
read at line 212 raises UnboundLocalError; the with statement releases
the lock while the exception propagates, and the call leaves the shared
config (returned as the second component) untouched, persists nothing and
returns no snapshot. -/
def update_config (globalCfg : BackendConfig) (_p : ConfigPayload) :
    Except PyErr UpdateResult × BackendConfig :=
  (Except.error PyErr.unboundLocalError, globalCfg)

/-! ## Sensing and automation loop (camera_worker, main.py lines 143-187) -/

/-- The data the loop derives from one successfully read frame: the
normalized mean luminance (line 161), the presence flag from the HOG
detection (lines 162-163), and the time.strftime timestamp (line 173).
The OpenCV computations themselves are the external detector capability. -/
structure Sample where
  brightness : ℚ
  presence : Bool
  timestamp : String
deriving DecidableEq, Repr

/-- The loop-local variables of camera_worker (main.py lines 144-146). -/
structure WorkerState where
  last_presence : Option Bool
  last_brightness : Option ℚ
  last_lamp_action : String
deriving DecidableEq, Repr

/-- The loop-local variables at thread start (main.py lines 144-146). -/
def initWorker : WorkerState :=
  { last_presence := none, last_brightness := none, last_lamp_action := "off" }

/-- One bus publish: the topic and the JSON object payload handed to
json.dumps (main.py line 140). -/
structure Event where
  topic : String
  payload : List (String × JVal)
deriving DecidableEq, Repr

/-- Python round() to integer: round-half-to-even. -/
def roundHalfEven (q : ℚ) : ℤ :=
  if q - Int.floor q = 1 / 2 then
    (if Even (Int.floor q) then Int.floor q else Int.floor q + 1)
  else Int.floor (q + 1 / 2)

/-- Python round(x, 3) on the exact rational model of the brightness. -/
def pyRound3 (q : ℚ) : ℚ :=
  (roundHalfEven (q * 1000) : ℚ) / 1000

/-- The change-detection gate for brightness (main.py lines 164-166):
publish the rounded value and remember it only when it differs from the
previously published one (Python != is true against None). -/
def brightnessGate (t : Topics) (last : Option ℚ) (b : ℚ) : List Event × Option ℚ :=
  if last ≠ some b then
    ([{ topic := t.brightness, payload := [("value", JVal.num (pyRound3 b))] }], some b)
  else ([], last)

/-- The change-detection gate for presence (main.py lines 167-169). -/
def presenceGate (t : Topics) (last : Option Bool) (p : Bool) : List Event × Option Bool :=
  if last ≠ some p then
    ([{ topic := t.presence, payload := [("value", JVal.num (if p then 1 else 0))] }], some p)
  else ([], last)

/-- The unconditional State Store write of one iteration (main.py lines
170-173): fresh brightness, presence and timestamp, other fields kept. -/
def updateSensed (st : SensorState) (s : Sample) : SensorState :=
  { st with brightness := some s.brightness, presence := s.presence,
            last_seen := some s.timestamp }

/-- The hysteresis automation block of one iteration (main.py lines
174-184): given the snapshot automation settings and topics, the current
last_lamp_action and State Store, and the frame brightness, produce the
lamp-control publishes, the new last_lamp_action and the new State
Store. -/
def automationStep (a : Automation) (t : Topics) (la : String) (st : SensorState)
    (b : ℚ) : List Event × String × SensorState :=
  if a.lamp_enabled then
    if b < a.lamp_on_threshold ∧ la ≠ "on" then
      ([{ topic := t.lamp_control,
          payload := [("state", JVal.num 1), ("source", JVal.str "camera")] }],
       "on", { st with lamp_state := 1 })
    else if a.lamp_off_threshold < b ∧ la ≠ "off" then
      ([{ topic := t.lamp_control,
          payload := [("state", JVal.num 0), ("source", JVal.str "camera")] }],
       "off", { st with lamp_state := 0 })
    else ([], la, st)
  else ([], la, st)

/-- One full iteration of the inner frame loop (main.py lines 157-185)
for a successfully read frame: the two change gates, the unconditional
sensed-state write, then the automation block; events in source order. -/
def cameraStep (a : Automation) (t : Topics) (ws : WorkerState) (st : SensorState)
    (s : Sample) : WorkerState × SensorState × List Event :=
  let gb := brightnessGate t ws.last_brightness s.brightness
  let gp := presenceGate t ws.last_presence s.presence
  let st1 := updateSensed st s
  let au := automationStep a t ws.last_lamp_action st1 s.brightness
  ({ last_presence := gp.2, last_brightness := gb.2, last_lamp_action := au.2.1 },
   au.2.2, gb.1 ++ gp.1 ++ au.1)

/-- The inner frame loop run over a list of frame samples under one fixed
config snapshot, collecting the events of each iteration. -/
def processFrames (a : Automation) (t : Topics) (ws : WorkerState) (st : SensorState) :
    List Sample → WorkerState × SensorState × List (List Event)
  | [] => (ws, st, [])
  | s :: rest =>
      let r := cameraStep a t ws st s
      let rr := processFrames a t r.1 r.2.1 rest
      (rr.1, rr.2.1, r.2.2 :: rr.2.2)

/-- The lamp-command state carried by an event, identified by the unique
payload shape of the lamp_control publish (main.py line 176/181). -/
def lampStateOf (e : Event) : Option ℚ :=
  match e.payload with
  | [("state", JVal.num z), ("source", JVal.str "camera")] => some z
  | _ => none

/-- The lamp-command states emitted across a run, in order. -/
def lampStatesIn (evss : List (List Event)) : List ℚ :=
  evss.flatten.filterMap lampStateOf

/-- The lamp-command states of one run of the inner loop. -/
def runLampStates (a : Automation) (t : Topics) (ws : WorkerState) (st : SensorState)
    (samples : List Sample) : List ℚ :=
  lampStatesIn (processFrames a t ws st samples).2.2

/-- The last_lamp_action value after each iteration of a run. -/
def runActions (a : Automation) (t : Topics) (ws : WorkerState) (st : SensorState) :
    List Sample → List String
  | [] => []
  | s :: rest =>
      let r := cameraStep a t ws st s
      r.1.last_lamp_action :: runActions a t r.1 r.2.1 rest

/-- Number of changes along a trace, starting from a given previous
value. -/
def countChanges (prev : String) : List String → ℕ
  | [] => 0
  | x :: xs => (if x ≠ prev then 1 else 0) + countChanges x xs

/-- Number of brightness publishes fired across a run (each iteration
contributes the length of its brightness-gate event list). -/
def runBrightnessPublishCount (a : Automation) (t : Topics) (ws : WorkerState)
    (st : SensorState) : List Sample → ℕ
  | [] => 0
  | s :: rest =>
      (brightnessGate t ws.last_brightness s.brightness).1.length +
        (let r := cameraStep a t ws st s
         runBrightnessPublishCount a t r.1 r.2.1 rest)

/-- Number of presence publishes fired across a run. -/
def runPresencePublishCount (a : Automation) (t : Topics) (ws : WorkerState)
    (st : SensorState) : List Sample → ℕ
  | [] => 0
  | s :: rest =>
      (presenceGate t ws.last_presence s.presence).1.length +
        (let r := cameraStep a t ws st s
         runPresencePublishCount a t r.1 r.2.1 rest)

/-! ## Outer loop structure and config snapshots (main.py lines 147-187)

The worker reads the shared config once at the top of the outer loop
(lines 148-151), then opens the capture device and processes frames in
the inner loop without re-reading it.  The config store over time is a
function from logical instants (frames processed so far) to the config
it holds; a segment is the list of frames obtained from one successful
device acquisition, ended by a read failure. -/

/-- The instants at which the worker reads the config: the start of each
outer iteration, measured in frames processed so far. -/
def segmentStarts (t : ℕ) : List (List Sample) → List ℕ
  | [] => []
  | seg :: rest => t :: segmentStarts (t + seg.length) rest

/-- Faithful model of camera_worker's loop structure: each outer
iteration snapshots the config store once (at instant t), then runs the
whole inner frame loop on that snapshot. -/
def workerRun (hist : ℕ → BackendConfig) (t : ℕ) (ws : WorkerState) (st : SensorState) :
    List (List Sample) → WorkerState × SensorState × List (List Event)
  | [] => (ws, st, [])
  | seg :: rest =>
      let cfg := hist t
      let r := processFrames cfg.automation cfg.topics ws st seg
      let rr := workerRun hist (t + seg.length) r.1 r.2.1 rest
      (rr.1, rr.2.1, r.2.2 ++ rr.2.2)

/-- Modelled from the claim's words, for comparison with workerRun: a
loop that re-snapshots the config store at every single frame
iteration. -/
def specSnapshotRun (hist : ℕ → BackendConfig) (t : ℕ) (ws : WorkerState)
    (st : SensorState) : List Sample → WorkerState × SensorState × List (List Event)
  | [] => (ws, st, [])
  | s :: rest =>
      let cfg := hist t
      let r := cameraStep cfg.automation cfg.topics ws st s
      let rr := specSnapshotRun hist (t + 1) r.1 r.2.1 rest
      (rr.1, rr.2.1, r.2.2 :: rr.2.2)

/-! ## Interleaving model of the config lock (main.py lines 203-231)

get_config and update_config are the two operations that run under
config_lock, each broken into its atomic micro-steps.  The writer
(update_config) acquires the lock and then executes its first statement:
the read of the function-local name config at line 212, unbound because
of the assignment at line 230, so that step raises UnboundLocalError; the
with statement releases the lock while the exception propagates, and the
writer terminates without ever writing the shared config or the file.
The reader (get_config) acquires, reads the shared config once, and
releases.  A schedule is an arbitrary interleaving of the two threads; a
thread whose next step needs the lock while the other holds it
stutters. -/

/-- The two threads of the interleaving model. -/
inductive Tid where
  | writer
  | reader
deriving DecidableEq, Repr

/-- Program counter of the update_config writer: acquire the lock,
execute the first statement (which raises), done. -/
inductive WPc where
  | acquire
  | readCfg
  | done
deriving DecidableEq, Repr

/-- Program counter of the get_config reader. -/
inductive RPc where
  | acquire
  | readCfg
  | release
  | done
deriving DecidableEq, Repr

/-- Shared and per-thread state of the interleaving model: the shared
config reference, the lock owner, the writer's program counter and
whether it has raised, the reader's program counter and the snapshot it
returned. -/
structure Sys where
  cfg : BackendConfig
  lock : Option Tid
  wpc : WPc
  raised : Bool
  rpc : RPc
  obs : Option BackendConfig
deriving DecidableEq, Repr

/-- One atomic micro-step of the update_config writer.  At readCfg it
evaluates BackendConfig(**asdict(config)) (line 212): config is an
unbound local there, so the step raises UnboundLocalError, the with
statement releases the lock during unwinding, and the writer is done —
the shared config is never written. -/
def writerStep (s : Sys) : Sys :=
  match s.wpc with
  | WPc.acquire =>
      if s.lock = none then { s with lock := some Tid.writer, wpc := WPc.readCfg } else s
  | WPc.readCfg => { s with lock := none, raised := true, wpc := WPc.done }
  | WPc.done => s

/-- One atomic micro-step of the get_config reader. -/
def readerStep (s : Sys) : Sys :=
  match s.rpc with
  | RPc.acquire =>
      if s.lock = none then { s with lock := some Tid.reader, rpc := RPc.readCfg } else s
  | RPc.readCfg => { s with obs := some s.cfg, rpc := RPc.release }
  | RPc.release => { s with lock := none, rpc := RPc.done }
  | RPc.done => s

/-- One step of the chosen thread. -/
def sysStep (who : Tid) (s : Sys) : Sys :=
  match who with
  | Tid.writer => writerStep s
  | Tid.reader => readerStep s

/-- Run a schedule of thread choices. -/
def sysRun : List Tid → Sys → Sys
  | [], s => s
  | who :: rest, s => sysRun rest (sysStep who s)

/-- Initial state: shared config cfg0, lock free, both threads at their
entry point, nothing raised, no observation yet. -/
def sysInit (cfg0 : BackendConfig) : Sys :=
  { cfg := cfg0, lock := none, wpc := WPc.acquire, raised := false,
    rpc := RPc.acquire, obs := none }

/-! ## Concrete scenario constants used by closed theorems -/

/-- The brightness sequence of the spec scenario, with constant presence
and distinct timestamps. -/
def scenarioSamples : List Sample :=
  [⟨6 / 10, false, "t1"⟩, ⟨4 / 10, false, "t2"⟩, ⟨3 / 10, false, "t3"⟩,
   ⟨3 / 10, false, "t4"⟩, ⟨55 / 100, false, "t5"⟩]

/-- Inverted-threshold automation settings (never rejected by the code):
on-threshold 1/2 above off-threshold 1/5. -/
def invertedAutomation : Automation :=
  { lamp_enabled := true, lamp_on_threshold := 1 / 2, lamp_off_threshold := 1 / 5 }

/-- A reconfigured snapshot raising the on-threshold to 9/10. -/
def raisedConfig : BackendConfig :=
  { automation := { lamp_enabled := true, lamp_on_threshold := 9 / 10,
                    lamp_off_threshold := 1 / 2 } }

/-- A config-store history that changes from the defaults to raisedConfig
right after instant 0. -/
def changingHist : ℕ → BackendConfig :=
  fun n => if n = 0 then {} else raisedConfig

/-- A config-store history frozen at the defaults. -/
def frozenHist : ℕ → BackendConfig :=
  fun _ => {}

/-- A patch carrying only an automation sub-object. -/
def automationOnlyPatch : ConfigPayload :=
  { automation := some { lamp_enabled := false, lamp_on_threshold := 1 / 4,
                         lamp_off_threshold := 3 / 4 } }

/-- A schedule that lets the writer run to completion (it raises) and
then the reader run. -/
def writerFirstSchedule : List Tid :=
  List.replicate 2 Tid.writer ++ List.replicate 3 Tid.reader

/-- A sample with brightness 9/20, used by the config-snapshot scenario. -/
def midSample : Sample := ⟨9 / 20, false, "t"⟩

/-- Invariant of the interleaving model: the writer never writes the
shared config (it raises before reaching its dead merge and commit code),
so the shared config is always the original snapshot and the reader's
returned snapshot is nothing or that original snapshot. -/
def sysInv (cfg0 : BackendConfig) (s : Sys) : Prop :=
  s.cfg = cfg0 ∧ (s.obs = none ∨ s.obs = some cfg0)

/-! ## C1, C2, C7, C8, C10 -/

/-- C1: with automation enabled, one loop iteration's hysteresis policy
is the two-state machine of the spec, with initial state off: brightness
below the on-threshold with last action not on publishes the lamp-ON
command, sets the last action to on and the lamp field to 1; otherwise
brightness above the off-threshold with last action not off publishes the
lamp-OFF command, sets the last action to off and the lamp field to 0;
otherwise nothing is published and the state is unchanged. -/
theorem hysteresis_two_state (a : Automation) (t : Topics) (la : String)
    (st : SensorState) (b : ℚ) (ha : a.lamp_enabled = true) :
    initWorker.last_lamp_action = "off" ∧
    (b < a.lamp_on_threshold ∧ la ≠ "on" →
      automationStep a t la st b =
        ([{ topic := t.lamp_control,
            payload := [("state", JVal.num 1), ("source", JVal.str "camera")] }],
         "on", { st with lamp_state := 1 })) ∧
    (¬(b < a.lamp_on_threshold ∧ la ≠ "on") →
      a.lamp_off_threshold < b ∧ la ≠ "off" →
      automationStep a t la st b =
        ([{ topic := t.lamp_control,
            payload := [("state", JVal.num 0), ("source", JVal.str "camera")] }],
         "off", { st with lamp_state := 0 })) ∧
    (¬(b < a.lamp_on_threshold ∧ la ≠ "on") →
      ¬(a.lamp_off_threshold < b ∧ la ≠ "off") →
      automationStep a t la st b = ([], la, st)) := by
  refine ⟨rfl, fun h1 => ?_, fun h1 h2 => ?_, fun h1 h2 => ?_⟩
  · simp [automationStep, ha, h1]
  · simp [automationStep, ha, h1, h2]
  · simp [automationStep, ha, h1, h2]

/-- Witness for C1: at the default thresholds, brightness 1/4 with last
action off commands the lamp ON. -/
theorem hysteresis_two_state_witness :
    automationStep {} {} "off" {} (1 / 4) =
      ([{ topic := ({} : Topics).lamp_control,
          payload := [("state", JVal.num 1), ("source", JVal.str "camera")] }],
       "on", { lamp_state := 1 }) :=
  (hysteresis_two_state {} {} "off" {} (1 / 4) rfl).2.1
    ⟨by with_unfolding_all decide, by decide⟩

/-- C2: on the brightness sequence 0.6, 0.4, 0.3, 0.3, 0.55 with the
default thresholds, automation enabled and initial last action off, the
run emits lamp commands exactly at iteration 3 (ON) and iteration 5
(OFF), and publishes brightness events exactly at iterations 1, 2, 3 and
5 (iteration 4 suppressed, equal to the prior value). -/
theorem scenario_actuation_and_publish :
    ((processFrames {} {} initWorker {} scenarioSamples).2.2.map
        (fun evs => evs.filterMap lampStateOf) = [[], [], [1], [], [0]]) ∧
    ((processFrames {} {} initWorker {} scenarioSamples).2.2.map
        (fun evs => (evs.filter (fun e => e.topic = ({} : Topics).brightness)).length)
      = [1, 1, 1, 0, 1]) := by
  constructor <;> with_unfolding_all decide

/-- C7: the claimed merge/persist/return behavior never happens: the
unqualified assignment config = updated at line 230 makes config local to
the whole update_config function, so the read at line 212 raises
UnboundLocalError on every call — for every prior snapshot and every
patch the call raises, the shared config survives unchanged, nothing is
persisted and no snapshot is returned. -/
theorem update_config_raises (globalCfg : BackendConfig) (p : ConfigPayload) :
    update_config globalCfg p =
      (Except.error PyErr.unboundLocalError, globalCfg) := rfl

/-- C8: on every successfully read frame, the State Store is updated with
the fresh brightness, presence and timestamp, leaving temperature and
lamp state untouched by that update; the resulting store does not depend
on the change-detection history, and with automation disabled the
iteration's store is exactly that sensed update. -/
theorem sensed_update_unconditional (a : Automation) (t : Topics) (lb : Option ℚ)
    (lp : Option Bool) (la : String) (st : SensorState) (s : Sample) :
    (updateSensed st s).brightness = some s.brightness ∧
    (updateSensed st s).presence = s.presence ∧
    (updateSensed st s).last_seen = some s.timestamp ∧
    (updateSensed st s).temperature = st.temperature ∧
    (updateSensed st s).lamp_state = st.lamp_state ∧
    (cameraStep a t ⟨lp, lb, la⟩ st s).2.1 =
      (cameraStep a t ⟨none, none, la⟩ st s).2.1 ∧
    (a.lamp_enabled = false →
      (cameraStep a t ⟨lp, lb, la⟩ st s).2.1 = updateSensed st s) := by
  refine ⟨rfl, rfl, rfl, rfl, rfl, rfl, fun h => ?_⟩
  simp [cameraStep, automationStep, h]

/-- Witness for C8: with automation disabled, the store after one
iteration is the sensed update itself. -/
theorem sensed_update_unconditional_witness :
    (cameraStep { lamp_enabled := false } {} ⟨none, none, "off"⟩
        {} ⟨1 / 2, true, "ts"⟩).2.1 = updateSensed {} ⟨1 / 2, true, "ts"⟩ :=
  (sensed_update_unconditional { lamp_enabled := false } {} none none "off" {}
    ⟨1 / 2, true, "ts"⟩).2.2.2.2.2.2 rfl

/-- C10: a valid-JSON temperature payload binding the accepted key value
to the non-numeric string abc makes the handler raise ValueError from the
float conversion (only json.JSONDecodeError is caught) instead of being
dropped. -/
theorem temp_handler_raises_on_nonnumeric :
    mqtt_on_message "iotzy/sensor/temperature" "iotzy/sensor/temperature"
        (Decoded.obj [("value", JVal.str "abc")]) {} = Except.error PyErr.valueError ∧
    dget [("value", JVal.str "abc")] "value" = some (JVal.str "abc") := by
  constructor <;> rfl

/-! ## C3: change-detection gate -/

/-- After any iteration the remembered last published brightness equals
the iteration's brightness, whether or not it was just published. -/
theorem cameraStep_last_brightness (a : Automation) (t : Topics) (ws : WorkerState)
    (st : SensorState) (s : Sample) :
    (cameraStep a t ws st s).1.last_brightness = some s.brightness := by
  by_cases h : ws.last_brightness = some s.brightness <;>
    simp [cameraStep, brightnessGate, h]

/-- After any iteration the remembered last published presence equals the
iteration's presence. -/
theorem cameraStep_last_presence (a : Automation) (t : Topics) (ws : WorkerState)
    (st : SensorState) (s : Sample) :
    (cameraStep a t ws st s).1.last_presence = some s.presence := by
  by_cases h : ws.last_presence = some s.presence <;>
    simp [cameraStep, presenceGate, h]

/-- Once the remembered brightness equals the constant sample value, a
run of identical samples fires no further brightness publish. -/
theorem runBrightnessPublishCount_replicate_done (a : Automation) (t : Topics)
    (n : ℕ) (s : Sample) :
    ∀ (ws : WorkerState) (st : SensorState), ws.last_brightness = some s.brightness →
      runBrightnessPublishCount a t ws st (List.replicate n s) = 0 := by
  induction n with
  | zero => intro ws st _; rfl
  | succ n ih =>
      intro ws st h
      have hg : brightnessGate t ws.last_brightness s.brightness = ([], ws.last_brightness) := by
        simp [brightnessGate, h]
      simp only [List.replicate_succ, runBrightnessPublishCount, hg, List.length_nil,
        Nat.zero_add]
      exact ih _ _ (cameraStep_last_brightness a t ws st s)

/-- Once the remembered presence equals the constant sample value, a run
of identical samples fires no further presence publish. -/
theorem runPresencePublishCount_replicate_done (a : Automation) (t : Topics)
    (n : ℕ) (s : Sample) :
    ∀ (ws : WorkerState) (st : SensorState), ws.last_presence = some s.presence →
      runPresencePublishCount a t ws st (List.replicate n s) = 0 := by
  induction n with
  | zero => intro ws st _; rfl
  | succ n ih =>
      intro ws st h
      have hg : presenceGate t ws.last_presence s.presence = ([], ws.last_presence) := by
        simp [presenceGate, h]
      simp only [List.replicate_succ, runPresencePublishCount, hg, List.length_nil,
        Nat.zero_add]
      exact ih _ _ (cameraStep_last_presence a t ws st s)

/-- C3: per iteration, the brightness (resp. presence) publish fires if
and only if the fresh value differs from the previously published one,
and then fires exactly once; the iteration's events are exactly the two
gate outputs followed by the automation output; and over a run of
identical samples each signal is published at most once. -/
theorem change_gated_publish (t : Topics) :
    (∀ (l : Option ℚ) (b : ℚ), (brightnessGate t l b).1 ≠ [] ↔ l ≠ some b) ∧
    (∀ (l : Option ℚ) (b : ℚ), l ≠ some b → (brightnessGate t l b).1.length = 1) ∧
    (∀ (l : Option Bool) (pr : Bool), (presenceGate t l pr).1 ≠ [] ↔ l ≠ some pr) ∧
    (∀ (l : Option Bool) (pr : Bool), l ≠ some pr → (presenceGate t l pr).1.length = 1) ∧
    (∀ (a : Automation) (ws : WorkerState) (st : SensorState) (s : Sample),
      (cameraStep a t ws st s).2.2 =
        (brightnessGate t ws.last_brightness s.brightness).1 ++
          (presenceGate t ws.last_presence s.presence).1 ++
          (automationStep a t ws.last_lamp_action (updateSensed st s) s.brightness).1) ∧
    (∀ (a : Automation) (ws : WorkerState) (st : SensorState) (n : ℕ) (s : Sample),
      runBrightnessPublishCount a t ws st (List.replicate n s) ≤ 1 ∧
      runPresencePublishCount a t ws st (List.replicate n s) ≤ 1) := by
  refine ⟨?_, ?_, ?_, ?_, fun a ws st s => rfl, ?_⟩
  · intro l b; by_cases h : l = some b <;> simp [brightnessGate, h]
  · intro l b h; simp [brightnessGate, h]
  · intro l pr; by_cases h : l = some pr <;> simp [presenceGate, h]
  · intro l pr h; simp [presenceGate, h]
  · intro a ws st n s
    constructor
    · cases n with
      | zero => simp [runBrightnessPublishCount]
      | succ n =>
          have h0 := runBrightnessPublishCount_replicate_done a t n s
            (cameraStep a t ws st s).1 (cameraStep a t ws st s).2.1
            (cameraStep_last_brightness a t ws st s)
          simp only [List.replicate_succ, runBrightnessPublishCount, h0, Nat.add_zero]
          by_cases h : ws.last_brightness = some s.brightness <;>
            simp [brightnessGate, h]
    · cases n with
      | zero => simp [runPresencePublishCount]
      | succ n =>
          have h0 := runPresencePublishCount_replicate_done a t n s
            (cameraStep a t ws st s).1 (cameraStep a t ws st s).2.1
            (cameraStep_last_presence a t ws st s)
          simp only [List.replicate_succ, runPresencePublishCount, h0, Nat.add_zero]
          by_cases h : ws.last_presence = some s.presence <;>
            simp [presenceGate, h]

/-- Witness for C3: a brightness differing from the last published one
fires exactly one publish. -/
theorem change_gated_publish_witness :
    (brightnessGate ({} : Topics) (some 1) 2).1.length = 1 :=
  (change_gated_publish {}).2.1 (some 1) 2 (by with_unfolding_all decide)

/-! ## C6: inbound temperature handler -/

/-- The or-chain of the source coincides with the truthiness-based
selection the amended specification describes. -/
theorem pyOr_chain_eq_selectTempSpec (d : JDict) :
    pyOr (dget d "value") (pyOr (dget d "temperature") (dget d "temp")) =
      selectTempSpec d := rfl

/-- Counterexample to C6 as stated: the payload binding the accepted key
value to the number 0 is valid JSON with a numeric value present, yet the
handler leaves the State Store unchanged instead of storing 0, because 0
is falsy in the or-chain. -/
theorem temp_zero_dropped :
    mqtt_on_message "iotzy/sensor/temperature" "iotzy/sensor/temperature"
        (Decoded.obj [("value", JVal.num 0)]) {} = Except.ok {} ∧
    dget [("value", JVal.num 0)] "value" = some (JVal.num 0) ∧
    mqtt_on_message "iotzy/sensor/temperature" "iotzy/sensor/temperature"
        (Decoded.obj [("value", JVal.num 0)]) {} ≠
      Except.ok { temperature := some 0 } := by
  refine ⟨?_, ?_, ?_⟩ <;> with_unfolding_all decide

/-- C6 (amended): on a message on the temperature topic the handler
selects the first of the keys value, temperature, temp whose value is
truthy (falling back to the raw temp value), stores its float conversion
into the temperature field when the selection is present and converts,
and silently drops the message when the selection is absent; undecodable
payloads are silently dropped as well. -/
theorem temp_handler_truthy_selection (topicTemp msgTopic : String) (d : JDict)
    (st : SensorState) (h : msgTopic = topicTemp) :
    (mqtt_on_message topicTemp msgTopic (Decoded.obj d) st =
      match selectTempSpec d with
      | none => Except.ok st
      | some v =>
          match pyFloat v with
          | Except.ok q => Except.ok { st with temperature := some q }
          | Except.error e => Except.error e) ∧
    mqtt_on_message topicTemp msgTopic Decoded.invalid st = Except.ok st := by
  subst h
  constructor
  · rw [← pyOr_chain_eq_selectTempSpec]
    simp [mqtt_on_message]
  · simp [mqtt_on_message]

/-- Witness for C6: a payload with a truthy numeric temperature key is
stored into the temperature field. -/
theorem temp_handler_truthy_selection_witness :
    mqtt_on_message "t" "t" (Decoded.obj [("temperature", JVal.num 21)]) {} =
      Except.ok { temperature := some 21 } := by
  have h := (temp_handler_truthy_selection "t" "t" [("temperature", JVal.num 21)] {} rfl).1
  exact h.trans (by with_unfolding_all decide)

/-! ## C5: when config snapshots take effect -/

set_option maxRecDepth 4000 in
/-- Counterexample to C5 as stated: with the config store changing right
after the first frame (raising the on-threshold so that brightness 9/20
falls below it), the worker as written emits no lamp command during the
two-frame acquisition, while a loop that re-snapshotted the config at
every iteration would emit a lamp-ON at the second frame. -/
theorem config_snapshot_counterexample :
    lampStatesIn (workerRun changingHist 0 initWorker {} [[midSample, midSample]]).2.2 = [] ∧
    lampStatesIn (specSnapshotRun changingHist 0 initWorker {} [midSample, midSample]).2.2
      = [1] ∧
    changingHist 1 ≠ changingHist 0 := by
  refine ⟨?_, ?_, ?_⟩ <;> with_unfolding_all decide

/-- C5 (amended): the worker snapshots the configuration once per outer
(device-acquisition) iteration and every frame until the next
reacquisition uses that snapshot, so the run only depends on the config
store's contents at the acquisition instants: two histories agreeing
there produce identical runs, and a change applied between frames takes
effect only at the next acquisition. -/
theorem config_snapshot_per_acquisition (hist hist2 : ℕ → BackendConfig)
    (t : ℕ) (ws : WorkerState) (st : SensorState) (segs : List (List Sample))
    (h : ∀ k ∈ segmentStarts t segs, hist k = hist2 k) :
    workerRun hist t ws st segs = workerRun hist2 t ws st segs := by
  induction segs generalizing t ws st with
  | nil => rfl
  | cons seg rest ih =>
      have h0 : hist t = hist2 t := h t (by simp [segmentStarts])
      have htail : ∀ k ∈ segmentStarts (t + seg.length) rest, hist k = hist2 k := by
        intro k hk
        exact h k (by simp [segmentStarts, hk])
      simp only [workerRun, h0]
      rw [ih (t + seg.length) _ _ htail]

/-- Witness for C5: a history that changes only between frames of one
acquisition gives the very same run as the frozen history. -/
theorem config_snapshot_per_acquisition_witness :
    workerRun changingHist 0 initWorker {} [[midSample, midSample]] =
      workerRun frozenHist 0 initWorker {} [[midSample, midSample]] :=
  config_snapshot_per_acquisition changingHist frozenHist 0 initWorker {}
    [[midSample, midSample]]
    (by
      intro k hk
      simp [segmentStarts] at hk
      subst hk
      rfl)

/-! ## C4: no-flap properties of the hysteresis policy -/

/-- A brightness or presence publish never carries a lamp-command
payload. -/
theorem lampStateOf_value_payload (tp : String) (v : JVal) :
    lampStateOf { topic := tp, payload := [("value", v)] } = none := rfl

/-- Each automation block run either emits nothing and keeps the last
action, or emits exactly one ON command moving the action to on, or
exactly one OFF command moving it to off. -/
theorem automationStep_trichotomy (a : Automation) (t : Topics) (la : String)
    (st : SensorState) (b : ℚ) :
    ((automationStep a t la st b).1.filterMap lampStateOf = [] ∧
      (automationStep a t la st b).2.1 = la) ∨
    ((automationStep a t la st b).1.filterMap lampStateOf = [1] ∧
      (automationStep a t la st b).2.1 = "on" ∧ la ≠ "on") ∨
    ((automationStep a t la st b).1.filterMap lampStateOf = [0] ∧
      (automationStep a t la st b).2.1 = "off" ∧ la ≠ "off") := by
  unfold automationStep
  split_ifs with he h1 h2
  · exact Or.inr (Or.inl ⟨rfl, rfl, h1.2⟩)
  · exact Or.inr (Or.inr ⟨rfl, rfl, h2.2⟩)
  · exact Or.inl ⟨rfl, rfl⟩
  · exact Or.inl ⟨rfl, rfl⟩

/-- The lamp commands of one full iteration are exactly those of its
automation block, and the new last action is the automation block's. -/
theorem cameraStep_lamp_filter (a : Automation) (t : Topics) (ws : WorkerState)
    (st : SensorState) (s : Sample) :
    (cameraStep a t ws st s).2.2.filterMap lampStateOf =
      (automationStep a t ws.last_lamp_action (updateSensed st s)
          s.brightness).1.filterMap lampStateOf ∧
    (cameraStep a t ws st s).1.last_lamp_action =
      (automationStep a t ws.last_lamp_action (updateSensed st s) s.brightness).2.1 := by
  refine ⟨?_, rfl⟩
  show ((brightnessGate t ws.last_brightness s.brightness).1 ++
      (presenceGate t ws.last_presence s.presence).1 ++
      (automationStep a t ws.last_lamp_action (updateSensed st s) s.brightness).1).filterMap
        lampStateOf = _
  rw [List.filterMap_append, List.filterMap_append]
  have hb : (brightnessGate t ws.last_brightness s.brightness).1.filterMap lampStateOf
      = [] := by
    by_cases h : ws.last_brightness = some s.brightness <;>
      simp [brightnessGate, h, lampStateOf_value_payload]
  have hp : (presenceGate t ws.last_presence s.presence).1.filterMap lampStateOf = [] := by
    by_cases h : ws.last_presence = some s.presence <;>
      simp [presenceGate, h, lampStateOf_value_payload]
  rw [hb, hp]
  simp

/-- Unfolding one iteration of the emitted lamp-command trace. -/
theorem runLampStates_cons (a : Automation) (t : Topics) (ws : WorkerState)
    (st : SensorState) (s : Sample) (rest : List Sample) :
    runLampStates a t ws st (s :: rest) =
      (automationStep a t ws.last_lamp_action (updateSensed st s)
          s.brightness).1.filterMap lampStateOf ++
        runLampStates a t (cameraStep a t ws st s).1 (cameraStep a t ws st s).2.1 rest := by
  simp only [runLampStates, processFrames, lampStatesIn, List.flatten_cons,
    List.filterMap_append]
  rw [(cameraStep_lamp_filter a t ws st s).1]

/-- The number of lamp commands emitted over any run equals the number of
changes of the last-action state along the run. -/
theorem runLampStates_length (a : Automation) (t : Topics) :
    ∀ (samples : List Sample) (ws : WorkerState) (st : SensorState),
      (runLampStates a t ws st samples).length =
        countChanges ws.last_lamp_action (runActions a t ws st samples) := by
  intro samples
  induction samples with
  | nil => intro ws st; rfl
  | cons s rest ih =>
      intro ws st
      rw [runLampStates_cons]
      simp only [runActions, countChanges, List.length_append]
      rw [ih]
      have hla : (cameraStep a t ws st s).1.last_lamp_action =
          (automationStep a t ws.last_lamp_action (updateSensed st s) s.brightness).2.1 :=
        (cameraStep_lamp_filter a t ws st s).2
      rcases automationStep_trichotomy a t ws.last_lamp_action (updateSensed st s)
          s.brightness with ⟨h1, h2⟩ | ⟨h1, h2, h3⟩ | ⟨h1, h2, h3⟩ <;>
        rw [h1] <;> simp [hla, h2]
      · simp [Ne.symm h3]
      · simp [Ne.symm h3]

/-- Lamp-command alternation: the emitted trace has no two adjacent equal
commands, and a run starting in state on (resp. off) cannot begin with an
ON (resp. OFF) command. -/
theorem runLampStates_chain (a : Automation) (t : Topics) :
    ∀ (samples : List Sample) (ws : WorkerState) (st : SensorState),
      List.Chain' (fun x y => x ≠ y) (runLampStates a t ws st samples) ∧
      (ws.last_lamp_action = "on" →
        (runLampStates a t ws st samples).head? ≠ some 1) ∧
      (ws.last_lamp_action = "off" →
        (runLampStates a t ws st samples).head? ≠ some 0) := by
  intro samples
  induction samples with
  | nil =>
      intro ws st
      exact ⟨List.chain'_nil, fun _ => by simp [runLampStates, processFrames, lampStatesIn],
        fun _ => by simp [runLampStates, processFrames, lampStatesIn]⟩
  | cons s rest ih =>
      intro ws st
      obtain ⟨ih1, ih2, ih3⟩ := ih (cameraStep a t ws st s).1 (cameraStep a t ws st s).2.1
      have hla : (cameraStep a t ws st s).1.last_lamp_action =
          (automationStep a t ws.last_lamp_action (updateSensed st s) s.brightness).2.1 :=
        (cameraStep_lamp_filter a t ws st s).2
      rw [runLampStates_cons]
      rcases automationStep_trichotomy a t ws.last_lamp_action (updateSensed st s)
          s.brightness with ⟨h1, h2⟩ | ⟨h1, h2, h3⟩ | ⟨h1, h2, h3⟩
      · rw [h1, List.nil_append]
        refine ⟨ih1, fun h => ih2 (by rw [hla, h2]; exact h),
          fun h => ih3 (by rw [hla, h2]; exact h)⟩
      · rw [h1]
        have hon : (cameraStep a t ws st s).1.last_lamp_action = "on" := by rw [hla, h2]
        refine ⟨List.chain'_cons'.mpr ⟨fun y hy => ?_, ih1⟩, fun h => absurd h h3,
          fun _ => by simp⟩
        intro heq
        rw [Option.mem_def] at hy
        rw [← heq] at hy
        exact ih2 hon hy
      · rw [h1]
        have hoff : (cameraStep a t ws st s).1.last_lamp_action = "off" := by rw [hla, h2]
        refine ⟨List.chain'_cons'.mpr ⟨fun y hy => ?_, ih1⟩, fun _ => by simp,
          fun h => absurd h h3⟩
        intro heq
        rw [Option.mem_def] at hy
        rw [← heq] at hy
        exact ih3 hoff hy

/-- From state on, with brightness not above the off-threshold, the
automation block does nothing. -/
theorem automationStep_on_skip (a : Automation) (t : Topics) (st1 : SensorState)
    (b : ℚ) (hoff : ¬(a.lamp_off_threshold < b)) :
    automationStep a t "on" st1 b = ([], "on", st1) := by
  unfold automationStep
  split_ifs with he h1 h2
  · exact absurd h1.2 (by simp)
  · exact absurd h2.1 hoff
  · rfl
  · rfl

/-- From state on, a constant-brightness run that never crosses the
off-threshold emits no lamp command at all. -/
theorem runLampStates_on_nil (a : Automation) (t : Topics) (b : ℚ) (pr : Bool)
    (ts : String) (hoff : ¬(a.lamp_off_threshold < b)) :
    ∀ (n : ℕ) (ws : WorkerState) (st : SensorState), ws.last_lamp_action = "on" →
      runLampStates a t ws st (List.replicate n (⟨b, pr, ts⟩ : Sample)) = [] := by
  intro n
  induction n with
  | zero => intro ws st _; rfl
  | succ n ih =>
      intro ws st h
      rw [List.replicate_succ, runLampStates_cons, h,
        automationStep_on_skip a t _ b hoff]
      simp only [List.filterMap_nil, List.nil_append]
      apply ih
      rw [(cameraStep_lamp_filter a t ws st ⟨b, pr, ts⟩).2, h,
        automationStep_on_skip a t _ b hoff]

/-- With ordered thresholds, a constant brightness below the on-threshold
produces at most one ON command over any number of iterations. -/
theorem runLampStates_const_once (a : Automation) (t : Topics) (ws : WorkerState)
    (st : SensorState) (b : ℚ) (pr : Bool) (ts : String) (n : ℕ)
    (ha : a.lamp_enabled = true) (hord : a.lamp_on_threshold < a.lamp_off_threshold)
    (hb : b < a.lamp_on_threshold) :
    (runLampStates a t ws st (List.replicate n (⟨b, pr, ts⟩ : Sample))).count 1 ≤ 1 := by
  have hoff : ¬(a.lamp_off_threshold < b) := not_lt.mpr (le_of_lt (hb.trans hord))
  cases n with
  | zero => simp [runLampStates, processFrames, lampStatesIn]
  | succ n =>
      rw [List.replicate_succ, runLampStates_cons]
      by_cases hla : ws.last_lamp_action = "on"
      · rw [hla, automationStep_on_skip a t _ b hoff]
        simp only [List.filterMap_nil, List.nil_append]
        rw [runLampStates_on_nil a t b pr ts hoff n _ _ ?_]
        · simp
        · rw [(cameraStep_lamp_filter a t ws st ⟨b, pr, ts⟩).2, hla,
            automationStep_on_skip a t _ b hoff]
      · have hstep : automationStep a t ws.last_lamp_action
            (updateSensed st ⟨b, pr, ts⟩) b =
            ([{ topic := t.lamp_control,
                payload := [("state", JVal.num 1), ("source", JVal.str "camera")] }],
             "on", { updateSensed st ⟨b, pr, ts⟩ with lamp_state := 1 }) := by
          unfold automationStep
          rw [if_pos ha, if_pos ⟨hb, hla⟩]
        rw [hstep]
        rw [runLampStates_on_nil a t b pr ts hoff n _ _ ?_]
        · rw [show List.filterMap lampStateOf
              [{ topic := t.lamp_control,
                 payload := [("state", JVal.num 1), ("source", JVal.str "camera")] }]
              = [1] from rfl]
          simp
        · rw [(cameraStep_lamp_filter a t ws st ⟨b, pr, ts⟩).2, hstep]

/-- Counterexample to C4 as stated: with the inverted thresholds the code
never rejects (on-threshold 1/2 above off-threshold 1/5), a constant
brightness 3/10 below the on-threshold yields two ON commands in three
iterations. -/
theorem constant_brightness_flap :
    invertedAutomation.lamp_enabled = true ∧
    ((3 : ℚ) / 10 < invertedAutomation.lamp_on_threshold) ∧
    (runLampStates invertedAutomation {} initWorker {}
        (List.replicate 3 (⟨3 / 10, false, "t"⟩ : Sample))).count 1 = 2 := by
  refine ⟨rfl, ?_, ?_⟩ <;> with_unfolding_all decide

/-- C4 (amended): with automation enabled, lamp commands are never
emitted twice in a row with the same state, and the number of actuation
commands over any run equals the number of transitions of the hysteresis
last-action state; provided the thresholds are ordered as the spec's
invariant requires (onThreshold below offThreshold), a constant
brightness below the on-threshold emits at most one ON command across any
number of consecutive iterations. -/
theorem lamp_no_flap (a : Automation) (t : Topics) (ws : WorkerState)
    (st : SensorState) (samples : List Sample) (ha : a.lamp_enabled = true) :
    List.Chain' (fun x y => x ≠ y) (runLampStates a t ws st samples) ∧
    (runLampStates a t ws st samples).length =
      countChanges ws.last_lamp_action (runActions a t ws st samples) ∧
    (∀ (b : ℚ) (pr : Bool) (ts : String) (n : ℕ),
      a.lamp_on_threshold < a.lamp_off_threshold → b < a.lamp_on_threshold →
      (runLampStates a t ws st (List.replicate n (⟨b, pr, ts⟩ : Sample))).count 1 ≤ 1) :=
  ⟨(runLampStates_chain a t samples ws st).1,
   runLampStates_length a t samples ws st,
   fun b pr ts n hord hb => runLampStates_const_once a t ws st b pr ts n ha hord hb⟩

/-- Witness for C4: at the default thresholds a constant brightness 1/4
over five iterations yields at most one ON command. -/
theorem lamp_no_flap_witness :
    (runLampStates {} {} initWorker {}
        (List.replicate 5 (⟨1 / 4, false, "t"⟩ : Sample))).count 1 ≤ 1 :=
  (lamp_no_flap {} {} initWorker {} [] rfl).2.2 (1 / 4) false "t" 5
    (by with_unfolding_all decide) (by with_unfolding_all decide)

/-! ## C9: atomicity of get_config with respect to update_config -/

/-- The invariant holds initially. -/
theorem sysInv_init (cfg0 : BackendConfig) : sysInv cfg0 (sysInit cfg0) :=
  ⟨rfl, Or.inl rfl⟩

/-- The invariant is preserved by every micro-step of either thread. -/
theorem sysInv_step (cfg0 : BackendConfig) (who : Tid) (s : Sys)
    (h : sysInv cfg0 s) : sysInv cfg0 (sysStep who s) := by
  obtain ⟨h1, h2⟩ := h
  cases who
  case writer =>
    show sysInv cfg0 (writerStep s)
    rcases hpc : s.wpc with _ | _ | _ <;> simp only [writerStep, hpc]
    · split_ifs with hl
      · exact ⟨h1, h2⟩
      · exact ⟨h1, h2⟩
    · exact ⟨h1, h2⟩
    · exact ⟨h1, h2⟩
  case reader =>
    show sysInv cfg0 (readerStep s)
    rcases hpc : s.rpc with _ | _ | _ | _ <;> simp only [readerStep, hpc]
    · split_ifs with hl
      · exact ⟨h1, h2⟩
      · exact ⟨h1, h2⟩
    · exact ⟨h1, Or.inr (by rw [h1])⟩
    · exact ⟨h1, h2⟩
    · exact ⟨h1, h2⟩

/-- The invariant holds after running any schedule. -/
theorem sysInv_run (cfg0 : BackendConfig) :
    ∀ (sched : List Tid) (s : Sys), sysInv cfg0 s → sysInv cfg0 (sysRun sched s) := by
  intro sched
  induction sched with
  | nil => intro s h; exact h
  | cons who rest ih => intro s h; exact ih _ (sysInv_step cfg0 who s h)

/-- C9: for every interleaving of the get_config reader with an
update_config call, the snapshot the reader returns is the complete
original configuration — update_config raises UnboundLocalError at its
first statement under the lock and never writes the shared config — so no
reader ever observes a snapshot mixing old and new sub-objects: every
returned snapshot is either the complete old configuration or the
complete patched one (in fact always the old one, for any patch). -/
theorem config_get_replace_atomic (cfg0 : BackendConfig) (p : ConfigPayload)
    (sched : List Tid) (c : BackendConfig)
    (h : (sysRun sched (sysInit cfg0)).obs = some c) :
    c = cfg0 ∧ (c = cfg0 ∨ c = apply_patch cfg0 p) := by
  obtain ⟨-, hobs⟩ := sysInv_run cfg0 sched (sysInit cfg0) (sysInv_init cfg0)
  rcases hobs with h0 | h0
  · rw [h0] at h; cases h
  · rw [h0] at h
    have hc := (Option.some_injective _ h).symm
    exact ⟨hc, Or.inl hc⟩

/-- Witness for C9: after the writer runs (and raises) and the reader
runs, the reader has observed exactly the untouched default snapshot. -/
theorem config_get_replace_atomic_witness :
    (sysRun writerFirstSchedule (sysInit {})).obs = some ({} : BackendConfig) ∧
    (sysRun writerFirstSchedule (sysInit {})).raised = true ∧
    (({} : BackendConfig) = ({} : BackendConfig) ∧
      (({} : BackendConfig) = ({} : BackendConfig) ∨
        ({} : BackendConfig) = apply_patch {} automationOnlyPatch)) := by
  refine ⟨rfl, rfl, ?_⟩
  exact config_get_replace_atomic {} automationOnlyPatch writerFirstSchedule
    ({} : BackendConfig) rfl
